import Mathlib

/-! GSettings bridge for Node.js (`nodegsettings.cc`)

A shallow embedding of the four entry points of `src/nodegsettings.cc`
(`get_gsetting_keys`, `get_gsetting`, `schema_exists`, `set_gsetting`) and the
properties of them that the specification states.

Modelling conventions.

* The GSettings backend (GLib/GIO) is outside the source file.  It is a record
  `Backend σ` of the library calls the source performs; `σ` is the state of the
  settings database.  Schema data (source, installed schemas, declared keys,
  ranges) is static, stored values live in the state.
* Every call into the backend is appended to a trace of `StoreCall`s, in the
  order of the source, so that "is invoked / is not invoked / exactly once /
  after" are statements about that trace.
* A JavaScript number is a `Double`: the exact rational value of a finite
  double, or negative zero, or NaN, or an infinity.  `finite 0` is positive
  zero.
* Output on `stdout` (`printf`, `g_print`) and the release of buffers (`g_free`)
  are not part of the model.
* Text is a Lean `String` (a sequence of code points).  A `char *` buffer is a
  list of code points with its terminator; UTF-8 maps the code point U+0000,
  and no other, to a zero byte, so reading the buffer as a C string stops at
  the first U+0000.
-/

namespace NodeGSettings

/-! ## Values on the JavaScript side -/

/-- A JavaScript number: a finite double other than negative zero (by its
exact value, so that `finite 0` is positive zero), negative zero, NaN or an
infinity. -/
inductive Double where
  | finite (q : ℚ)
  | negZero
  | nan
  | posInf
  | negInf
  deriving DecidableEq

/-- A JavaScript value as the bridge sees it.  An array is the list of what
`Get(i)` returns for `i < length`; a hole reads as `undefined`. -/
inductive JsValue where
  | undefined
  | null
  | boolean (b : Bool)
  | number (x : Double)
  | string (s : String)
  | array (elems : List JsValue)
  | object

/-- V8 `Value::IsBoolean`. -/
def JsValue.IsBoolean : JsValue → Bool
  | .boolean _ => true
  | _ => false

/-- V8 `Value::IsString`. -/
def JsValue.IsString : JsValue → Bool
  | .string _ => true
  | _ => false

/-- V8 `Value::IsNumber`. -/
def JsValue.IsNumber : JsValue → Bool
  | .number _ => true
  | _ => false

/-- V8 `Value::IsArray`. -/
def JsValue.IsArray : JsValue → Bool
  | .array _ => true
  | _ => false

/-- The double is a whole number between `lo` and `hi` and is not negative zero. -/
def Double.isIntegerIn (lo hi : Int) : Double → Bool
  | .finite q => decide (q.den = 1) && decide (lo ≤ q.num) && decide (q.num ≤ hi)
  | _ => false

/-- V8 `Value::IsInt32`: the value is a number that is a 32-bit signed integer;
V8 answers false for negative zero. -/
def JsValue.IsInt32 : JsValue → Bool
  | .number x => x.isIntegerIn (-(2 : Int) ^ 31) ((2 : Int) ^ 31 - 1)
  | _ => false

/-- V8 `Value::IsUint32`: the value is a number that is a 32-bit unsigned
integer; V8 answers false for negative zero. -/
def JsValue.IsUint32 : JsValue → Bool
  | .number x => x.isIntegerIn 0 ((2 : Int) ^ 32 - 1)
  | _ => false

/-- Integer part of a double, rounding toward zero; `0` for negative zero, NaN
and infinities (the first step of ECMAScript ToInt32 / ToUint32). -/
def Double.truncate : Double → Int
  | .finite q => Int.tdiv q.num (q.den : Int)
  | _ => 0

/-- V8 `ToInt32()->Value()`: ECMAScript ToInt32, the integer part modulo `2^32`
read as a signed 32-bit integer. -/
def JsValue.ToInt32Value : JsValue → Int
  | .number x => (x.truncate + 2 ^ 31) % 2 ^ 32 - 2 ^ 31
  | _ => 0

/-- V8 `ToUint32()->Value()`: ECMAScript ToUint32, the integer part modulo `2^32`. -/
def JsValue.ToUint32Value : JsValue → Nat
  | .number x => (x.truncate % 2 ^ 32).toNat
  | _ => 0

/-- V8 `Int32::New`. -/
def Int32_New (n : Int) : JsValue := .number (.finite (n : ℚ))

/-- V8 `Number::New` applied to a `guint`. -/
def Number_New_guint (n : Nat) : JsValue := .number (.finite (n : ℚ))

/-- V8 `String::New` applied to a C string. -/
def String_New (c : String) : JsValue := .string c

/-- V8 `Array::New(size)`: an array of `size` holes. -/
def Array_New (size : Nat) : List JsValue := List.replicate size JsValue.undefined

/-- V8 `Array::Set(i, v)`: stores `v` at index `i`; an index at or beyond the
length grows the array, the skipped positions being holes. -/
def Array_Set (a : List JsValue) (i : Nat) (v : JsValue) : List JsValue :=
  if i < a.length then a.set i v
  else a ++ List.replicate (i - a.length) JsValue.undefined ++ [v]

/-! ## C strings -/

/-- The code point U+0000, the terminator of a C string. -/
def NUL : Char := Char.ofNat 0

/-- Source lines 41-49.  The buffer of `Utf8Length() + 1` bytes that `WriteUtf8`
fills: the text of the string followed by the terminator.  The argument is the
result of `ToString()`; the embedding applies it to JavaScript strings only. -/
def v8_value_to_utf8_string (s : String) : List Char := s.data ++ [NUL]

/-- What a consumer of a `char *` reads: the characters before the first terminator. -/
def c_str (buf : List Char) : String := String.mk (buf.takeWhile (fun c => c != NUL))

/-! ## Values on the GSettings side -/

/-- A `GVariant`, by its type: the six types the bridge writes, the `a(ss)` type
it also reads, and any other type (by its type string).  A string payload is a
C string. -/
inductive GVariant where
  | boolean (b : Bool)
  | int32 (n : Int)
  | uint32 (n : Nat)
  | double (x : Double)
  | string (s : String)
  | string_array (xs : List String)
  | string_tuple_array (xs : List (String × String))
  | other (type_string : String)
  deriving DecidableEq

/-- A `GVariantType`: the constants the source compares the type of a variant
with, and any other type (by its type string). -/
inductive GVariantType where
  | BOOLEAN
  | INT32
  | UINT32
  | DOUBLE
  | STRING
  | STRING_ARRAY
  | STRING_TUPLE_ARRAY
  | OTHER (type_string : String)
  deriving DecidableEq

/-- GLib `g_variant_get_type`. -/
def g_variant_get_type : GVariant → GVariantType
  | .boolean _ => .BOOLEAN
  | .int32 _ => .INT32
  | .uint32 _ => .UINT32
  | .double _ => .DOUBLE
  | .string _ => .STRING
  | .string_array _ => .STRING_ARRAY
  | .string_tuple_array _ => .STRING_TUPLE_ARRAY
  | .other t => .OTHER t

/-- The GIO calls of the source.  `σ` is the state of the settings database.
The schema source, the installed schemas, their keys and their ranges do not
depend on the state; stored values do. -/
structure Backend (σ : Type) where
  /-- Whether `g_settings_schema_source_get_default` returns a source (not NULL). -/
  schema_source_get_default : Bool
  /-- Whether `g_settings_schema_source_lookup` finds the schema (not NULL). -/
  schema_source_lookup : String → Bool
  /-- The call `g_settings_schema_has_key` on a schema that was found. -/
  schema_has_key : String → String → Bool
  /-- The call `g_settings_list_keys` on the settings of a schema. -/
  list_keys : String → List String
  /-- The call `g_settings_schema_key_range_check`. -/
  key_range_check : String → String → GVariant → Bool
  /-- The call `g_settings_get_value`. -/
  get_value : σ → String → String → GVariant
  /-- The call `g_settings_set_value`: whether the write succeeded, and the new state. -/
  set_value : σ → String → String → GVariant → Bool × σ
  /-- The call `g_settings_sync`. -/
  sync : σ → σ

/-- One call into the backend.  `schema_has_key` records the schema pointer it
was given: `none` is NULL. -/
inductive StoreCall where
  | schema_source_get_default
  | schema_source_lookup (schema_id : String)
  | schema_has_key (schema : Option String) (key : String)
  | schema_get_key (schema_id key : String)
  | settings_new (schema_id : String)
  | list_keys (schema_id : String)
  | get_value (schema_id key : String)
  | key_range_check (schema_id key : String) (v : GVariant)
  | set_value (schema_id key : String) (v : GVariant)
  | sync
  deriving DecidableEq

/-- The call is `g_settings_get_value`. -/
def StoreCall.isGetValue : StoreCall → Bool
  | .get_value _ _ => true
  | _ => false

/-- The call is `g_settings_schema_key_range_check`. -/
def StoreCall.isRangeCheck : StoreCall → Bool
  | .key_range_check _ _ _ => true
  | _ => false

/-- The call is `g_settings_set_value`. -/
def StoreCall.isSetValue : StoreCall → Bool
  | .set_value _ _ _ => true
  | _ => false

/-- The call is `g_settings_sync`. -/
def StoreCall.isSync : StoreCall → Bool
  | .sync => true
  | _ => false

/-- How an entry point ends.
* `returned v`: `scope.Close(v)` with no exception pending;
* `threw msg`: `ThrowException(Exception::Error(String::New(msg)))`, after
  which the entry point returns `Undefined()`;
* `null_schema`: `g_settings_schema_has_key` was called on a NULL schema.  GLib
  reads a field of the schema there; the source defines no result. -/
inductive Outcome where
  | returned (v : JsValue)
  | threw (msg : String)
  | null_schema

/-- The result of running an entry point: how it ended, the state of the
settings database afterwards, and the backend calls it made, in order. -/
structure Run (σ : Type) where
  outcome : Outcome
  state : σ
  trace : List StoreCall

/-! ## `get_gsetting_keys` (source lines 52-75) -/

/-- The size in bytes of a pointer.  Only the quotient of two pointer sizes is used. -/
def pointer_size : Nat := 8

/-- Source lines 70-72, `for (i = 0; keys[i]; i++) togo->Set(i, String::New(keys[i]))`,
from index `i` on: `keys` are the entries before the terminating NULL. -/
def get_gsetting_keys_loop : List String → Nat → List JsValue → List JsValue
  | [], _, togo => togo
  | k :: rest, i, togo => get_gsetting_keys_loop rest (i + 1) (Array_Set togo i (String_New k))

/-- Source lines 52-75.  `keys` is a `gchar **` and `keys[0]` a `gchar *`, so
`sizeof(keys)/sizeof(keys[0])` divides the size of a pointer by the size of a
pointer.  The source validates nothing here; `list_keys` is what the backend
lists for the settings object of `schema_id`. -/
def get_gsetting_keys {σ : Type} (B : Backend σ) (s : σ) (schema_id : String) : Run σ :=
  let schema_id := c_str (v8_value_to_utf8_string schema_id)
  let keys := B.list_keys schema_id
  let size := pointer_size / pointer_size
  let togo := Array_New size
  { outcome := .returned (.array (get_gsetting_keys_loop keys 0 togo))
    state := s
    trace := [.settings_new schema_id, .list_keys schema_id] }

/-! ## `get_gsetting` (source lines 78-199) -/

/-- Source lines 125-198: the chain of `g_variant_type_equal` tests on the type
of the variant read, and the JavaScript value built for each type. -/
def get_gsetting_decode : GVariant → Outcome
  | .double x => .returned (.number x)
  | .int32 n => .returned (Int32_New n)
  | .uint32 n => .returned (Number_New_guint n)
  | .string c => .returned (String_New c)
  | .string_array elems => .returned (.array (elems.map String_New))
  | .string_tuple_array pairs =>
      .returned (.array (pairs.map fun p => .array [String_New p.1, String_New p.2]))
  | .boolean b => .returned (.boolean b)
  | .other _ => .threw "Need to implement reading that value type"

/-- Source lines 78-199.  Both tests before `g_settings_schema_has_key` are on
`schema_source` (lines 91 and 101). -/
def get_gsetting {σ : Type} (B : Backend σ) (s : σ) (schema_id key : String) : Run σ :=
  let schema_id := c_str (v8_value_to_utf8_string schema_id)
  let key := c_str (v8_value_to_utf8_string key)
  let schema_source := B.schema_source_get_default
  if !schema_source then
    { outcome := .threw "No schema source available!", state := s,
      trace := [.schema_source_get_default] }
  else
    let gsettings_schema := if B.schema_source_lookup schema_id then some schema_id else none
    if !schema_source then
      { outcome := .threw "Schema is not installed!", state := s,
        trace := [.schema_source_get_default, .schema_source_lookup schema_id] }
    else
      match gsettings_schema with
      | none =>
        { outcome := .null_schema, state := s,
          trace := [.schema_source_get_default, .schema_source_lookup schema_id,
                    .schema_has_key none key] }
      | some schema =>
        let has_key := B.schema_has_key schema key
        if !has_key then
          { outcome := .threw "Key does not exist!", state := s,
            trace := [.schema_source_get_default, .schema_source_lookup schema_id,
                      .schema_has_key (some schema) key] }
        else
          let variant := B.get_value s schema_id key
          { outcome := get_gsetting_decode variant, state := s,
            trace := [.schema_source_get_default, .schema_source_lookup schema_id,
                      .schema_has_key (some schema) key, .settings_new schema_id,
                      .get_value schema_id key] }

/-! ## `schema_exists` (source lines 202-225) -/

/-- Source lines 202-225. -/
def schema_exists {σ : Type} (B : Backend σ) (s : σ) (schema_id : String) : Run σ :=
  let schema_id := c_str (v8_value_to_utf8_string schema_id)
  let schema_source := B.schema_source_get_default
  if !schema_source then
    { outcome := .threw "No schema sources available!", state := s,
      trace := [.schema_source_get_default] }
  else
    let schema := B.schema_source_lookup schema_id
    if !schema then
      { outcome := .returned (.boolean false), state := s,
        trace := [.schema_source_get_default, .schema_source_lookup schema_id] }
    else
      { outcome := .returned (.boolean true), state := s,
        trace := [.schema_source_get_default, .schema_source_lookup schema_id] }

/-! ## `set_gsetting` (source lines 228-390) -/

/-- Source lines 336-352, the loop over the elements of the array: a string
element is added to the builder, any other element throws at once. -/
def set_gsetting_strv_loop : List JsValue → List String → Except String (List String)
  | [], builder => .ok builder
  | .string e :: rest, builder =>
      set_gsetting_strv_loop rest (builder ++ [c_str (v8_value_to_utf8_string e)])
  | _ :: _, _ => .error "Array item have to be strings!"

/-- Source lines 281-367: the chain of `g_variant_type_equal` tests on the type
of the variant that is currently stored, and the variant built from the
JavaScript value; an error is the message that is thrown. -/
def set_gsetting_encode (type : GVariantType) (value_obj : JsValue) : Except String GVariant :=
  match type with
  | .BOOLEAN =>
      match value_obj with
      | .boolean b => .ok (.boolean b)
      | _ => .error "Key requires boolean value!"
  | .STRING =>
      match value_obj with
      | .string val => .ok (.string (c_str (v8_value_to_utf8_string val)))
      | _ => .error "Key requires string value!"
  | .DOUBLE =>
      match value_obj with
      | .number x => .ok (.double x)
      | _ => .error "Key requires a number!"
  | .INT32 =>
      if value_obj.IsInt32 then .ok (.int32 value_obj.ToInt32Value)
      else .error "Key requires a integer number!"
  | .UINT32 =>
      if value_obj.IsUint32 then .ok (.uint32 value_obj.ToUint32Value)
      else .error "Key requires a unsigned integer number!"
  | .STRING_ARRAY =>
      match value_obj with
      | .array elems =>
          match set_gsetting_strv_loop elems [] with
          | .ok builder => .ok (.string_array builder)
          | .error msg => .error msg
      | _ => .error "Key requires an array of strings!"
  | _ => .error "We haven't implemented this type yet!"

/-- The backend calls of `set_gsetting` up to and including the read of the
current value (source lines 245-277). -/
def set_gsetting_read_calls (schema_id key : String) : List StoreCall :=
  [.schema_source_get_default, .schema_source_lookup schema_id,
   .schema_has_key (some schema_id) key, .schema_get_key schema_id key,
   .settings_new schema_id, .get_value schema_id key]

/-- Source lines 228-390.  Both tests before `g_settings_schema_has_key` are on
`schema_source` (lines 246 and 256). -/
def set_gsetting {σ : Type} (B : Backend σ) (s : σ) (schema_id key : String)
    (value_obj : JsValue) : Run σ :=
  let schema_id := c_str (v8_value_to_utf8_string schema_id)
  let key := c_str (v8_value_to_utf8_string key)
  let schema_source := B.schema_source_get_default
  if !schema_source then
    { outcome := .threw "No schema source available!", state := s,
      trace := [.schema_source_get_default] }
  else
    let gsettings_schema := if B.schema_source_lookup schema_id then some schema_id else none
    if !schema_source then
      { outcome := .threw "Schema is not installed!", state := s,
        trace := [.schema_source_get_default, .schema_source_lookup schema_id] }
    else
      match gsettings_schema with
      | none =>
        { outcome := .null_schema, state := s,
          trace := [.schema_source_get_default, .schema_source_lookup schema_id,
                    .schema_has_key none key] }
      | some schema =>
        let has_key := B.schema_has_key schema key
        if !has_key then
          { outcome := .threw "Key does not exist!", state := s,
            trace := [.schema_source_get_default, .schema_source_lookup schema_id,
                      .schema_has_key (some schema) key] }
        else
          let variant := B.get_value s schema_id key
          let type := g_variant_get_type variant
          match set_gsetting_encode type value_obj with
          | .error validation_fail_message =>
            { outcome := .threw validation_fail_message, state := s,
              trace := set_gsetting_read_calls schema key }
          | .ok variant_to_set =>
            let is_valid := B.key_range_check schema key variant_to_set
            if !is_valid then
              { outcome := .threw "Invalid range or type!", state := s,
                trace := set_gsetting_read_calls schema key ++
                  [.key_range_check schema key variant_to_set] }
            else
              let written := B.set_value s schema_id key variant_to_set
              let write_success := written.1
              let synced := B.sync written.2
              { outcome :=
                  if !write_success then
                    .threw "Failed to set gsetting! Key is write protected."
                  else .returned .undefined
                state := synced
                trace := set_gsetting_read_calls schema key ++
                  [.key_range_check schema key variant_to_set,
                   .set_value schema_id key variant_to_set, .sync] }

/-! ## A small backend to evaluate the entry points on -/

/-- The state of the example backend: the stored values of `valid.schema`,
most recent first. -/
abbrev DemoState := List (String × GVariant)

/-- The keys that `valid.schema` declares, in the order the backend lists them. -/
def demoKeys : List String :=
  ["bool-key", "int-key", "ranged-int-key", "uint-key", "double-key", "string-key",
   "string-array-key", "locked-key", "pairs-key"]

/-- The stored values the examples start from. -/
def demoState : DemoState :=
  [("bool-key", .boolean false), ("int-key", .int32 0), ("ranged-int-key", .int32 5),
   ("uint-key", .uint32 0), ("double-key", .double (.finite 0)), ("string-key", .string ""),
   ("string-array-key", .string_array []), ("locked-key", .boolean true),
   ("pairs-key", .string_tuple_array [])]

/-- The value stored under a key. -/
def demoValue : DemoState → String → GVariant
  | [], _ => .other "?"
  | (k, v) :: rest, key => if k = key then v else demoValue rest key

/-- The range of a key of `valid.schema`: `ranged-int-key` takes 0 to 10, the
other keys take every value. -/
def demoRange (key : String) (v : GVariant) : Bool :=
  if key = "ranged-int-key" then
    match v with
    | .int32 n => decide (0 ≤ n) && decide (n ≤ 10)
    | _ => false
  else true

/-- An example backend with two installed schemas, `valid.schema` with the keys
`demoKeys` and `empty.schema` without keys; `locked-key` is not writable.
`source` tells whether there is a default schema source. -/
def demoBackend (source : Bool) : Backend DemoState where
  schema_source_get_default := source
  schema_source_lookup := fun id => decide (id = "valid.schema") || decide (id = "empty.schema")
  schema_has_key := fun id key => decide (id = "valid.schema") && decide (key ∈ demoKeys)
  list_keys := fun id => if id = "valid.schema" then demoKeys else []
  key_range_check := fun _ key v => demoRange key v
  get_value := fun s _ key => demoValue s key
  set_value := fun s _ key v => if key = "locked-key" then (false, s) else (true, (key, v) :: s)
  sync := fun s => s

/-! ## Vocabulary of the statements -/

/-- The C string that the backend receives for a JavaScript string argument. -/
abbrev c_name (s : String) : String := c_str (v8_value_to_utf8_string s)

/-- The run did not call `g_settings_get_value`. -/
def Run.noRead {σ : Type} (r : Run σ) : Prop := r.trace.any StoreCall.isGetValue = false

/-- The run did not call `g_settings_schema_key_range_check`. -/
def Run.noRangeCheck {σ : Type} (r : Run σ) : Prop := r.trace.any StoreCall.isRangeCheck = false

/-- The run called neither `g_settings_set_value` nor `g_settings_sync`, and
the state of the settings database is `s`, the state before the run. -/
def Run.noWrite {σ : Type} (r : Run σ) (s : σ) : Prop :=
  r.state = s ∧ r.trace.any StoreCall.isSetValue = false ∧ r.trace.any StoreCall.isSync = false

/-- The value is the number `n` and not negative zero. -/
def JsValue.isFiniteInteger (v : JsValue) (n : Int) : Prop := v = .number (.finite (n : ℚ))

/-- The mathematical value of a double: both zeros have the value 0, NaN and
the infinities have none. -/
def Double.value : Double → Option ℚ
  | .finite q => some q
  | .negZero => some 0
  | _ => none

/-- The value is a number whose mathematical value is the whole number `n`. -/
def JsValue.isInteger (v : JsValue) (n : Int) : Prop :=
  ∃ x : Double, v = .number x ∧ x.value = some (n : ℚ)

/-- The value is the number negative zero. -/
def JsValue.isNegZero (v : JsValue) : Prop := v = .number .negZero

/-- No string of the value holds the code point U+0000: the value itself when
it is a string, its elements when it is an array. -/
def JsValue.nulFree : JsValue → Bool
  | .string t => !t.data.contains NUL
  | .array elems =>
      elems.all fun e =>
        match e with
        | .string t => !t.data.contains NUL
        | _ => true
  | _ => true

/-! ## C strings: lemmas -/

theorem takeWhile_append_NUL (l : List Char) :
    (l ++ [NUL]).takeWhile (fun c => c != NUL) = l.takeWhile (fun c => c != NUL) := by
  induction l with
  | nil => simp [List.takeWhile]
  | cons c t ih =>
    by_cases h : c = NUL
    · simp [List.takeWhile_cons, h]
    · simp [List.takeWhile_cons, h, ih]

theorem takeWhile_of_not_mem (l : List Char) (h : NUL ∉ l) :
    l.takeWhile (fun c => c != NUL) = l := by
  induction l with
  | nil => rfl
  | cons c t ih =>
    have hc : c ≠ NUL := fun e => h (by simp [e])
    have ht : NUL ∉ t := fun e => h (by simp [e])
    simp [List.takeWhile_cons, hc, ih ht]

/-- A string without U+0000 reaches the backend unchanged. -/
theorem c_name_of_nulFree (t : String) (h : t.data.contains NUL = false) : c_name t = t := by
  have hn : NUL ∉ t.data := by simpa using h
  show String.mk ((t.data ++ [NUL]).takeWhile (fun c => c != NUL)) = t
  rw [takeWhile_append_NUL, takeWhile_of_not_mem _ hn]

/-- A string reaches the backend cut at its first U+0000. -/
theorem c_name_eq (t : String) :
    c_name t = String.mk (t.data.takeWhile (fun c => c != NUL)) := by
  show String.mk ((t.data ++ [NUL]).takeWhile (fun c => c != NUL)) = _
  rw [takeWhile_append_NUL]

/-! ## `set_gsetting`: the paths after validation -/

theorem set_gsetting_of_encode_error {σ : Type} (B : Backend σ) (s : σ)
    (schema_id key : String) (value_obj : JsValue) (msg : String)
    (hsrc : B.schema_source_get_default = true)
    (hschema : B.schema_source_lookup (c_name schema_id) = true)
    (hkey : B.schema_has_key (c_name schema_id) (c_name key) = true)
    (henc : set_gsetting_encode
      (g_variant_get_type (B.get_value s (c_name schema_id) (c_name key))) value_obj
        = .error msg) :
    set_gsetting B s schema_id key value_obj =
      { outcome := .threw msg, state := s,
        trace := set_gsetting_read_calls (c_name schema_id) (c_name key) } := by
  simp [set_gsetting, hsrc, hschema, hkey, henc]

theorem set_gsetting_of_encode_ok {σ : Type} (B : Backend σ) (s : σ)
    (schema_id key : String) (value_obj : JsValue) (g : GVariant)
    (hsrc : B.schema_source_get_default = true)
    (hschema : B.schema_source_lookup (c_name schema_id) = true)
    (hkey : B.schema_has_key (c_name schema_id) (c_name key) = true)
    (henc : set_gsetting_encode
      (g_variant_get_type (B.get_value s (c_name schema_id) (c_name key))) value_obj
        = .ok g) :
    set_gsetting B s schema_id key value_obj =
      if B.key_range_check (c_name schema_id) (c_name key) g then
        { outcome :=
            if (B.set_value s (c_name schema_id) (c_name key) g).1 then .returned .undefined
            else .threw "Failed to set gsetting! Key is write protected."
          state := B.sync (B.set_value s (c_name schema_id) (c_name key) g).2
          trace := set_gsetting_read_calls (c_name schema_id) (c_name key) ++
            [.key_range_check (c_name schema_id) (c_name key) g,
             .set_value (c_name schema_id) (c_name key) g, .sync] }
      else
        { outcome := .threw "Invalid range or type!", state := s,
          trace := set_gsetting_read_calls (c_name schema_id) (c_name key) ++
            [.key_range_check (c_name schema_id) (c_name key) g] } := by
  simp only [c_name] at hsrc hschema hkey henc ⊢
  by_cases hr : B.key_range_check (c_str (v8_value_to_utf8_string schema_id))
      (c_str (v8_value_to_utf8_string key)) g = true
  · by_cases hw : (B.set_value s (c_str (v8_value_to_utf8_string schema_id))
        (c_str (v8_value_to_utf8_string key)) g).1 = true
    · simp [set_gsetting, hsrc, hschema, hkey, henc, hr, hw]
    · simp [set_gsetting, hsrc, hschema, hkey, henc, hr, hw]
  · simp [set_gsetting, hsrc, hschema, hkey, henc, hr]

theorem set_gsetting_read_calls_any (schema_id key : String) :
    (set_gsetting_read_calls schema_id key).any StoreCall.isRangeCheck = false ∧
    (set_gsetting_read_calls schema_id key).any StoreCall.isSetValue = false ∧
    (set_gsetting_read_calls schema_id key).any StoreCall.isSync = false := by
  simp [set_gsetting_read_calls, StoreCall.isRangeCheck, StoreCall.isSetValue, StoreCall.isSync]

/-- When the encoding fails, the message is thrown and the range check, the
write and the sync are not reached. -/
theorem set_gsetting_encode_error_untouched {σ : Type} (B : Backend σ) (s : σ)
    (schema_id key : String) (value_obj : JsValue) (msg : String)
    (hsrc : B.schema_source_get_default = true)
    (hschema : B.schema_source_lookup (c_name schema_id) = true)
    (hkey : B.schema_has_key (c_name schema_id) (c_name key) = true)
    (henc : set_gsetting_encode
      (g_variant_get_type (B.get_value s (c_name schema_id) (c_name key))) value_obj
        = .error msg) :
    (set_gsetting B s schema_id key value_obj).outcome = .threw msg ∧
    (set_gsetting B s schema_id key value_obj).noRangeCheck ∧
    (set_gsetting B s schema_id key value_obj).noWrite s := by
  rw [set_gsetting_of_encode_error B s schema_id key value_obj msg hsrc hschema hkey henc]
  have h := set_gsetting_read_calls_any (c_name schema_id) (c_name key)
  exact ⟨rfl, h.1, rfl, h.2.1, h.2.2⟩

/-! ## The encoding of a value: lemmas -/

theorem encode_BOOLEAN_error (v : JsValue) (h : v.IsBoolean = false) :
    set_gsetting_encode .BOOLEAN v = .error "Key requires boolean value!" := by
  cases v <;> simp_all [set_gsetting_encode, JsValue.IsBoolean]

theorem encode_STRING_error (v : JsValue) (h : v.IsString = false) :
    set_gsetting_encode .STRING v = .error "Key requires string value!" := by
  cases v <;> simp_all [set_gsetting_encode, JsValue.IsString]

theorem encode_DOUBLE_error (v : JsValue) (h : v.IsNumber = false) :
    set_gsetting_encode .DOUBLE v = .error "Key requires a number!" := by
  cases v <;> simp_all [set_gsetting_encode, JsValue.IsNumber]

theorem strv_loop_error (elems : List JsValue) (builder : List String)
    (h : ∃ e ∈ elems, e.IsString = false) :
    set_gsetting_strv_loop elems builder = .error "Array item have to be strings!" := by
  induction elems generalizing builder with
  | nil => simp at h
  | cons x rest ih =>
    cases x with
    | string t =>
      have hrest : ∃ e ∈ rest, e.IsString = false := by
        obtain ⟨e, he, hs⟩ := h
        rcases List.mem_cons.mp he with rfl | hm
        · simp [JsValue.IsString] at hs
        · exact ⟨e, hm, hs⟩
      simpa [set_gsetting_strv_loop] using ih _ hrest
    | _ => simp [set_gsetting_strv_loop]

theorem strv_loop_strings (ts : List String) (builder : List String) :
    set_gsetting_strv_loop (ts.map JsValue.string) builder
      = .ok (builder ++ ts.map c_name) := by
  induction ts generalizing builder with
  | nil => simp [set_gsetting_strv_loop]
  | cons t rest ih => simp [set_gsetting_strv_loop, ih, c_name]

theorem strv_loop_ok (elems : List JsValue) (builder out : List String)
    (h : set_gsetting_strv_loop elems builder = .ok out) :
    ∃ ts : List String, elems = ts.map JsValue.string ∧ out = builder ++ ts.map c_name := by
  induction elems generalizing builder with
  | nil =>
    refine ⟨[], rfl, ?_⟩
    simpa [set_gsetting_strv_loop] using h.symm
  | cons x rest ih =>
    cases x with
    | string t =>
      simp only [set_gsetting_strv_loop] at h
      obtain ⟨ts, hts, hout⟩ := ih _ h
      exact ⟨t :: ts, by simp [hts], by simp [hout, c_name]⟩
    | _ => simp [set_gsetting_strv_loop] at h

/-! ## Whole numbers -/

theorem isIntegerIn_iff (lo hi : Int) (q : ℚ) :
    (Double.finite q).isIntegerIn lo hi = true ↔ ∃ n : Int, q = (n : ℚ) ∧ lo ≤ n ∧ n ≤ hi := by
  simp only [Double.isIntegerIn, Bool.and_eq_true, decide_eq_true_eq]
  constructor
  · rintro ⟨⟨hd, hlo⟩, hhi⟩
    exact ⟨q.num, (Rat.coe_int_num_of_den_eq_one hd).symm, hlo, hhi⟩
  · rintro ⟨n, rfl, hlo, hhi⟩
    simp [hlo, hhi]

theorem IsInt32_iff (v : JsValue) :
    v.IsInt32 = true ↔
      ∃ n : Int, v.isFiniteInteger n ∧ -(2 : Int) ^ 31 ≤ n ∧ n ≤ (2 : Int) ^ 31 - 1 := by
  cases v with
  | number x =>
    cases x with
    | finite q =>
      simp only [JsValue.IsInt32, isIntegerIn_iff, JsValue.isFiniteInteger, JsValue.number.injEq,
        Double.finite.injEq]
    | _ => simp [JsValue.IsInt32, Double.isIntegerIn, JsValue.isFiniteInteger]
  | _ => simp [JsValue.IsInt32, JsValue.isFiniteInteger]

theorem IsUint32_iff (v : JsValue) :
    v.IsUint32 = true ↔ ∃ n : Int, v.isFiniteInteger n ∧ 0 ≤ n ∧ n ≤ (2 : Int) ^ 32 - 1 := by
  cases v with
  | number x =>
    cases x with
    | finite q =>
      simp only [JsValue.IsUint32, isIntegerIn_iff, JsValue.isFiniteInteger, JsValue.number.injEq,
        Double.finite.injEq]
    | _ => simp [JsValue.IsUint32, Double.isIntegerIn, JsValue.isFiniteInteger]
  | _ => simp [JsValue.IsUint32, JsValue.isFiniteInteger]

theorem truncate_intCast (n : Int) : (Double.finite (n : ℚ)).truncate = n := by
  simp [Double.truncate]

theorem ToInt32Value_of_int32 (n : Int) (hlo : -(2 : Int) ^ 31 ≤ n)
    (hhi : n ≤ (2 : Int) ^ 31 - 1) :
    (JsValue.number (.finite (n : ℚ))).ToInt32Value = n := by
  simp only [JsValue.ToInt32Value, truncate_intCast]
  norm_num at hlo hhi ⊢
  omega

theorem ToUint32Value_of_uint32 (n : Int) (hlo : 0 ≤ n) (hhi : n ≤ (2 : Int) ^ 32 - 1) :
    (JsValue.number (.finite (n : ℚ))).ToUint32Value = n.toNat := by
  simp only [JsValue.ToUint32Value, truncate_intCast]
  norm_num at hhi ⊢
  omega

theorem encode_INT32_ok (n : Int) (hlo : -(2 : Int) ^ 31 ≤ n) (hhi : n ≤ (2 : Int) ^ 31 - 1) :
    set_gsetting_encode .INT32 (.number (.finite (n : ℚ))) = .ok (.int32 n) := by
  have h : (JsValue.number (.finite (n : ℚ))).IsInt32 = true :=
    (IsInt32_iff _).mpr ⟨n, rfl, hlo, hhi⟩
  simp [set_gsetting_encode, h, ToInt32Value_of_int32 n hlo hhi]

theorem encode_INT32_error (v : JsValue)
    (h : ¬ ∃ n : Int, v.isFiniteInteger n ∧ -(2 : Int) ^ 31 ≤ n ∧ n ≤ (2 : Int) ^ 31 - 1) :
    set_gsetting_encode .INT32 v = .error "Key requires a integer number!" := by
  have h2 : v.IsInt32 = false := by
    rw [← Bool.not_eq_true, IsInt32_iff]
    exact h
  simp [set_gsetting_encode, h2]

theorem encode_UINT32_ok (n : Int) (hlo : 0 ≤ n) (hhi : n ≤ (2 : Int) ^ 32 - 1) :
    set_gsetting_encode .UINT32 (.number (.finite (n : ℚ))) = .ok (.uint32 n.toNat) := by
  have h : (JsValue.number (.finite (n : ℚ))).IsUint32 = true :=
    (IsUint32_iff _).mpr ⟨n, rfl, hlo, hhi⟩
  simp [set_gsetting_encode, h, ToUint32Value_of_uint32 n hlo hhi]

theorem encode_UINT32_error (v : JsValue)
    (h : ¬ ∃ n : Int, v.isFiniteInteger n ∧ 0 ≤ n ∧ n ≤ (2 : Int) ^ 32 - 1) :
    set_gsetting_encode .UINT32 v = .error "Key requires a unsigned integer number!" := by
  have h2 : v.IsUint32 = false := by
    rw [← Bool.not_eq_true, IsUint32_iff]
    exact h
  simp [set_gsetting_encode, h2]

/-- Values that an int32 key and a uint32 key refuse: a fraction, a whole number
out of range, a negative number for uint32, a numeric string, NaN. -/
theorem encode_integer_refused :
    set_gsetting_encode .INT32 (.number (.finite (3 / 2)))
      = .error "Key requires a integer number!" ∧
    set_gsetting_encode .INT32 (.number (.finite 2147483648))
      = .error "Key requires a integer number!" ∧
    set_gsetting_encode .INT32 (.string "5") = .error "Key requires a integer number!" ∧
    set_gsetting_encode .INT32 (.number .nan) = .error "Key requires a integer number!" ∧
    set_gsetting_encode .UINT32 (.number (.finite (-1)))
      = .error "Key requires a unsigned integer number!" ∧
    set_gsetting_encode .UINT32 (.number (.finite 4294967296))
      = .error "Key requires a unsigned integer number!" := by
  refine ⟨?_, ?_, rfl, rfl, ?_, ?_⟩
  · apply encode_INT32_error
    rintro ⟨n, hn, -, -⟩
    simp only [JsValue.isFiniteInteger, JsValue.number.injEq, Double.finite.injEq] at hn
    have h2 : (2 : ℚ) * (n : ℚ) = 3 := by rw [← hn]; norm_num
    have h3 : (2 : ℤ) * n = 3 := by exact_mod_cast h2
    omega
  · apply encode_INT32_error
    rintro ⟨n, hn, -, hhi⟩
    simp only [JsValue.isFiniteInteger, JsValue.number.injEq, Double.finite.injEq] at hn
    have h3 : (2147483648 : ℤ) = n := by exact_mod_cast hn
    norm_num at hhi
    omega
  · apply encode_UINT32_error
    rintro ⟨n, hn, hlo, -⟩
    simp only [JsValue.isFiniteInteger, JsValue.number.injEq, Double.finite.injEq] at hn
    have h3 : (-1 : ℤ) = n := by exact_mod_cast hn
    omega
  · apply encode_UINT32_error
    rintro ⟨n, hn, -, hhi⟩
    simp only [JsValue.isFiniteInteger, JsValue.number.injEq, Double.finite.injEq] at hn
    have h3 : (4294967296 : ℤ) = n := by exact_mod_cast hn
    norm_num at hhi
    omega

/-! ## `get_gsetting_keys`: the array that is returned -/

theorem get_gsetting_keys_loop_full (keys : List String) (i : Nat) (togo : List JsValue)
    (h : togo.length = i) :
    get_gsetting_keys_loop keys i togo = togo ++ keys.map String_New := by
  induction keys generalizing i togo with
  | nil => simp [get_gsetting_keys_loop]
  | cons k rest ih =>
    have hset : Array_Set togo i (String_New k) = togo ++ [String_New k] := by
      simp [Array_Set, h]
    rw [get_gsetting_keys_loop, hset, ih (i + 1) _ (by simp [h])]
    simp

/-- For a schema with at least one key the array holds the keys, in order. -/
theorem get_gsetting_keys_of_keys {σ : Type} (B : Backend σ) (s : σ) (schema_id : String)
    (h : B.list_keys (c_name schema_id) ≠ []) :
    (get_gsetting_keys B s schema_id).outcome
      = .returned (.array ((B.list_keys (c_name schema_id)).map String_New)) := by
  simp only [c_name] at h
  simp only [get_gsetting_keys]
  cases hk : B.list_keys (c_str (v8_value_to_utf8_string schema_id)) with
  | nil => exact absurd hk h
  | cons k rest =>
    have h1 : Array_Set (Array_New (pointer_size / pointer_size)) 0 (String_New k)
        = [String_New k] := by
      simp [Array_Set, Array_New, pointer_size]
    rw [get_gsetting_keys_loop, h1, get_gsetting_keys_loop_full rest 1 [String_New k] rfl]
    simp

/-- For a schema without keys the array has length one; its element is a hole. -/
theorem get_gsetting_keys_of_no_keys {σ : Type} (B : Backend σ) (s : σ) (schema_id : String)
    (h : B.list_keys (c_name schema_id) = []) :
    (get_gsetting_keys B s schema_id).outcome = .returned (.array [.undefined]) := by
  simp only [c_name] at h
  simp [get_gsetting_keys, h, get_gsetting_keys_loop, Array_New, pointer_size]

/-! ## The message "Schema is not installed!" -/

theorem get_gsetting_decode_ne (g : GVariant) :
    get_gsetting_decode g ≠ .threw "Schema is not installed!" := by
  cases g <;> simp [get_gsetting_decode]

/-- No run of `get_gsetting` throws "Schema is not installed!". -/
theorem get_gsetting_never_schema_not_installed {σ : Type} (B : Backend σ) (s : σ)
    (schema_id key : String) :
    (get_gsetting B s schema_id key).outcome ≠ .threw "Schema is not installed!" := by
  cases hsrc : B.schema_source_get_default
  · simp [get_gsetting, hsrc]
  · cases hl : B.schema_source_lookup (c_str (v8_value_to_utf8_string schema_id))
    · simp [get_gsetting, hsrc, hl]
    · cases hk : B.schema_has_key (c_str (v8_value_to_utf8_string schema_id))
          (c_str (v8_value_to_utf8_string key))
      · simp [get_gsetting, hsrc, hl, hk]
      · simpa [get_gsetting, hsrc, hl, hk] using get_gsetting_decode_ne _

theorem strv_loop_error_msg (elems : List JsValue) (builder : List String) (msg : String)
    (h : set_gsetting_strv_loop elems builder = .error msg) :
    msg = "Array item have to be strings!" := by
  induction elems generalizing builder with
  | nil => simp [set_gsetting_strv_loop] at h
  | cons x rest ih =>
    cases x with
    | string t =>
      simp only [set_gsetting_strv_loop] at h
      exact ih _ h
    | _ =>
      simp [set_gsetting_strv_loop] at h
      exact h.symm

theorem set_gsetting_encode_ne (type : GVariantType) (v : JsValue) (msg : String)
    (h : set_gsetting_encode type v = .error msg) : msg ≠ "Schema is not installed!" := by
  cases type with
  | INT32 =>
    simp only [set_gsetting_encode] at h
    split at h
    · cases h
    · cases h
      decide
  | UINT32 =>
    simp only [set_gsetting_encode] at h
    split at h
    · cases h
    · cases h
      decide
  | STRING_ARRAY =>
    cases v with
    | array elems =>
      simp only [set_gsetting_encode] at h
      cases hloop : set_gsetting_strv_loop elems [] with
      | ok b => simp [hloop] at h
      | error m =>
        simp [hloop] at h
        rw [← h, strv_loop_error_msg elems [] m hloop]
        decide
    | _ =>
      simp [set_gsetting_encode] at h
      rw [← h]
      decide
  | _ =>
    cases v <;> simp [set_gsetting_encode] at h <;> (rw [← h]; decide)

/-- No run of `set_gsetting` throws "Schema is not installed!". -/
theorem set_gsetting_never_schema_not_installed {σ : Type} (B : Backend σ) (s : σ)
    (schema_id key : String) (value_obj : JsValue) :
    (set_gsetting B s schema_id key value_obj).outcome
      ≠ .threw "Schema is not installed!" := by
  cases hsrc : B.schema_source_get_default with
  | false => simp [set_gsetting, hsrc]
  | true =>
  cases hl : B.schema_source_lookup (c_name schema_id) with
  | false =>
    simp only [c_name] at hl
    simp [set_gsetting, hsrc, hl]
  | true =>
  cases hk : B.schema_has_key (c_name schema_id) (c_name key) with
  | false =>
    simp only [c_name] at hl hk
    simp [set_gsetting, hsrc, hl, hk]
  | true =>
  cases henc : set_gsetting_encode
      (g_variant_get_type (B.get_value s (c_name schema_id) (c_name key))) value_obj with
  | error msg =>
    rw [set_gsetting_of_encode_error B s schema_id key value_obj msg hsrc hl hk henc]
    have := set_gsetting_encode_ne _ _ _ henc
    simpa using this
  | ok g =>
    rw [set_gsetting_of_encode_ok B s schema_id key value_obj g hsrc hl hk henc]
    split
    · split <;> simp
    · simp

/-! ## Reading back what was encoded -/

theorem map_c_name_of_nulFree (ts : List String)
    (h : ∀ t ∈ ts, t.data.contains NUL = false) : ts.map c_name = ts := by
  induction ts with
  | nil => rfl
  | cons t rest ih =>
    have h1 : c_name t = t := c_name_of_nulFree t (h t (by simp))
    have h2 : rest.map c_name = rest := ih (fun u hu => h u (by simp [hu]))
    simp only [List.map_cons, h1, h2]

/-- What `get_gsetting` builds from a variant that `set_gsetting` encoded from a
value without U+0000 is that value. -/
theorem decode_encode (type : GVariantType) (v : JsValue) (g : GVariant)
    (henc : set_gsetting_encode type v = .ok g) (hnul : v.nulFree = true) :
    get_gsetting_decode g = .returned v := by
  cases type with
  | BOOLEAN =>
    cases v <;> simp [set_gsetting_encode] at henc
    subst henc
    rfl
  | STRING =>
    cases v <;> simp [set_gsetting_encode] at henc
    rename_i t
    have ht : c_name t = t := c_name_of_nulFree t (by simpa [JsValue.nulFree] using hnul)
    rw [← henc]
    show Outcome.returned (String_New (c_name t)) = _
    rw [ht]
    rfl
  | DOUBLE =>
    cases v <;> simp [set_gsetting_encode] at henc
    subst henc
    rfl
  | INT32 =>
    by_cases h : v.IsInt32 = true
    · obtain ⟨n, hv, hlo, hhi⟩ := (IsInt32_iff v).mp h
      rw [hv, encode_INT32_ok n hlo hhi] at henc
      cases henc
      rw [hv]
      rfl
    · simp [set_gsetting_encode, h] at henc
  | UINT32 =>
    by_cases h : v.IsUint32 = true
    · obtain ⟨n, hv, hlo, hhi⟩ := (IsUint32_iff v).mp h
      rw [hv, encode_UINT32_ok n hlo hhi] at henc
      cases henc
      rw [hv]
      have hc : ((n.toNat : ℕ) : ℚ) = (n : ℚ) := by
        have h1 : ((n.toNat : ℕ) : ℤ) = n := Int.toNat_of_nonneg hlo
        exact_mod_cast congrArg (fun z : ℤ => (z : ℚ)) h1
      simp [get_gsetting_decode, Number_New_guint, hc]
    · simp [set_gsetting_encode, h] at henc
  | STRING_ARRAY =>
    cases v <;> simp [set_gsetting_encode] at henc
    rename_i elems
    cases hloop : set_gsetting_strv_loop elems [] with
    | error msg => simp [hloop] at henc
    | ok builder =>
      simp [hloop] at henc
      obtain ⟨ts, hts, hb⟩ := strv_loop_ok elems [] builder hloop
      have hfree : ∀ t ∈ ts, t.data.contains NUL = false := by
        intro t ht
        have hall := hnul
        simp only [JsValue.nulFree, hts, List.all_eq_true] at hall
        have := hall (.string t) (List.mem_map.mpr ⟨t, ht, rfl⟩)
        simpa using this
      rw [map_c_name_of_nulFree ts hfree] at hb
      simp only [List.nil_append] at hb
      rw [← henc, hb, hts]
      simp [get_gsetting_decode, String_New]
  | STRING_TUPLE_ARRAY => simp [set_gsetting_encode] at henc
  | OTHER t => simp [set_gsetting_encode] at henc

/-- A number with a whole value that is not negative zero is a finite double. -/
theorem isInteger_not_negZero_iff (v : JsValue) (n : Int) :
    (v.isInteger n ∧ ¬ v.isNegZero) ↔ v.isFiniteInteger n := by
  constructor
  · rintro ⟨⟨x, hv, hx⟩, hz⟩
    cases x with
    | finite q =>
      simp only [Double.value, Option.some.injEq] at hx
      rw [hv, hx]
      rfl
    | negZero => exact absurd hv hz
    | nan => simp [Double.value] at hx
    | posInf => simp [Double.value] at hx
    | negInf => simp [Double.value] at hx
  · intro hv
    refine ⟨⟨.finite (n : ℚ), hv, rfl⟩, ?_⟩
    intro hz
    rw [JsValue.isFiniteInteger] at hv
    rw [JsValue.isNegZero, hv] at hz
    cases hz

/-- The int32 and uint32 keys, for the numbers that `IsInt32` and `IsUint32`
accept: the whole numbers in range other than negative zero. -/
theorem set_gsetting_integer_keys_finite {σ : Type} (B : Backend σ) (s : σ)
    (schema_id key : String) (value_obj : JsValue)
    (hsrc : B.schema_source_get_default = true)
    (hschema : B.schema_source_lookup (c_name schema_id) = true)
    (hkey : B.schema_has_key (c_name schema_id) (c_name key) = true) :
    (g_variant_get_type (B.get_value s (c_name schema_id) (c_name key)) = .INT32 →
      ((∃ g, set_gsetting_encode .INT32 value_obj = .ok g) ↔
        ∃ n : Int, value_obj.isFiniteInteger n ∧ -(2 : Int) ^ 31 ≤ n ∧ n ≤ (2 : Int) ^ 31 - 1) ∧
      (∀ n : Int, value_obj.isFiniteInteger n → -(2 : Int) ^ 31 ≤ n → n ≤ (2 : Int) ^ 31 - 1 →
        (set_gsetting B s schema_id key value_obj).trace
          = set_gsetting_read_calls (c_name schema_id) (c_name key) ++
            .key_range_check (c_name schema_id) (c_name key) (.int32 n) ::
              (if B.key_range_check (c_name schema_id) (c_name key) (.int32 n) then
                [.set_value (c_name schema_id) (c_name key) (.int32 n), .sync]
               else [])) ∧
      ((¬ ∃ n : Int, value_obj.isFiniteInteger n ∧ -(2 : Int) ^ 31 ≤ n ∧ n ≤ (2 : Int) ^ 31 - 1) →
        (set_gsetting B s schema_id key value_obj).outcome
          = .threw "Key requires a integer number!" ∧
        (set_gsetting B s schema_id key value_obj).noRangeCheck ∧
        (set_gsetting B s schema_id key value_obj).noWrite s)) ∧
    (g_variant_get_type (B.get_value s (c_name schema_id) (c_name key)) = .UINT32 →
      ((∃ g, set_gsetting_encode .UINT32 value_obj = .ok g) ↔
        ∃ n : Int, value_obj.isFiniteInteger n ∧ 0 ≤ n ∧ n ≤ (2 : Int) ^ 32 - 1) ∧
      (∀ n : Int, value_obj.isFiniteInteger n → 0 ≤ n → n ≤ (2 : Int) ^ 32 - 1 →
        (set_gsetting B s schema_id key value_obj).trace
          = set_gsetting_read_calls (c_name schema_id) (c_name key) ++
            .key_range_check (c_name schema_id) (c_name key) (.uint32 n.toNat) ::
              (if B.key_range_check (c_name schema_id) (c_name key) (.uint32 n.toNat) then
                [.set_value (c_name schema_id) (c_name key) (.uint32 n.toNat), .sync]
               else [])) ∧
      ((¬ ∃ n : Int, value_obj.isFiniteInteger n ∧ 0 ≤ n ∧ n ≤ (2 : Int) ^ 32 - 1) →
        (set_gsetting B s schema_id key value_obj).outcome
          = .threw "Key requires a unsigned integer number!" ∧
        (set_gsetting B s schema_id key value_obj).noRangeCheck ∧
        (set_gsetting B s schema_id key value_obj).noWrite s)) := by
  refine ⟨fun ht => ⟨?_, ?_, ?_⟩, fun ht => ⟨?_, ?_, ?_⟩⟩
  · constructor
    · rintro ⟨g, hg⟩
      by_contra hn
      rw [encode_INT32_error value_obj hn] at hg
      cases hg
    · rintro ⟨n, hv, hlo, hhi⟩
      rw [hv]
      exact ⟨_, encode_INT32_ok n hlo hhi⟩
  · intro n hv hlo hhi
    have henc := encode_INT32_ok n hlo hhi
    rw [← hv, ← ht] at henc
    rw [set_gsetting_of_encode_ok B s schema_id key value_obj _ hsrc hschema hkey henc]
    split <;> rfl
  · intro hn
    exact set_gsetting_encode_error_untouched B s schema_id key value_obj _ hsrc hschema hkey
      (by rw [ht]; exact encode_INT32_error value_obj hn)
  · constructor
    · rintro ⟨g, hg⟩
      by_contra hn
      rw [encode_UINT32_error value_obj hn] at hg
      cases hg
    · rintro ⟨n, hv, hlo, hhi⟩
      rw [hv]
      exact ⟨_, encode_UINT32_ok n hlo hhi⟩
  · intro n hv hlo hhi
    have henc := encode_UINT32_ok n hlo hhi
    rw [← hv, ← ht] at henc
    rw [set_gsetting_of_encode_ok B s schema_id key value_obj _ hsrc hschema hkey henc]
    split <;> rfl
  · intro hn
    exact set_gsetting_encode_error_untouched B s schema_id key value_obj _ hsrc hschema hkey
      (by rw [ht]; exact encode_UINT32_error value_obj hn)


/-- A key that the schema does not declare, the schema id and the key being
taken as the backend receives them. -/
theorem missing_key_rejected_as_received {σ : Type} (B : Backend σ) (s : σ)
    (schema_id key : String) (value_obj : JsValue)
    (hsrc : B.schema_source_get_default = true)
    (hschema : B.schema_source_lookup (c_name schema_id) = true)
    (hkey : B.schema_has_key (c_name schema_id) (c_name key) = false) :
    ((get_gsetting B s schema_id key).outcome = .threw "Key does not exist!" ∧
      (get_gsetting B s schema_id key).noRead ∧
      (get_gsetting B s schema_id key).noRangeCheck ∧
      (get_gsetting B s schema_id key).noWrite s) ∧
    ((set_gsetting B s schema_id key value_obj).outcome = .threw "Key does not exist!" ∧
      (set_gsetting B s schema_id key value_obj).noRead ∧
      (set_gsetting B s schema_id key value_obj).noRangeCheck ∧
      (set_gsetting B s schema_id key value_obj).noWrite s) := by
  simp only [c_name] at hsrc hschema hkey
  simp [get_gsetting, set_gsetting, hsrc, hschema, hkey, Run.noRead, Run.noRangeCheck,
    Run.noWrite, StoreCall.isGetValue, StoreCall.isRangeCheck, StoreCall.isSetValue,
    StoreCall.isSync]


/-- What `schema_exists` does: with a schema source it returns whether the
lookup of the schema id, as the backend receives it, finds a schema; without
one it throws "No schema sources available!".  It reads and writes no value. -/
theorem schema_exists_outcome {σ : Type} (B : Backend σ) (s : σ) (schema_id : String) :
    (schema_exists B s schema_id).outcome
      = (if B.schema_source_get_default then
          .returned (.boolean (B.schema_source_lookup (c_name schema_id)))
         else .threw "No schema sources available!") ∧
    (schema_exists B s schema_id).noRead ∧
    (schema_exists B s schema_id).noWrite s := by
  unfold schema_exists
  cases hsrc : B.schema_source_get_default
  · simp [Run.noRead, Run.noWrite, StoreCall.isGetValue, StoreCall.isSetValue,
      StoreCall.isSync]
  · cases hl : B.schema_source_lookup (c_str (v8_value_to_utf8_string schema_id)) <;>
      simp [hl, Run.noRead, Run.noWrite, StoreCall.isGetValue, StoreCall.isSetValue,
        StoreCall.isSync]


/-! ## The claims -/

/-- C2.  On a key whose stored value is a boolean, a string or a double, a
value that is not a boolean, not a string or not a number makes `set_gsetting`
throw "Key requires boolean value!", "Key requires string value!" or
"Key requires a number!"; the range check, the write and the sync are not
called and the state of the store is the one before the call. -/
theorem set_gsetting_type_mismatch_leaves_store {σ : Type} (B : Backend σ) (s : σ)
    (schema_id key : String) (value_obj : JsValue)
    (hsrc : B.schema_source_get_default = true)
    (hschema : B.schema_source_lookup (c_name schema_id) = true)
    (hkey : B.schema_has_key (c_name schema_id) (c_name key) = true) :
    (g_variant_get_type (B.get_value s (c_name schema_id) (c_name key)) = .BOOLEAN →
      value_obj.IsBoolean = false →
        (set_gsetting B s schema_id key value_obj).outcome
          = .threw "Key requires boolean value!" ∧
        (set_gsetting B s schema_id key value_obj).noRangeCheck ∧
        (set_gsetting B s schema_id key value_obj).noWrite s) ∧
    (g_variant_get_type (B.get_value s (c_name schema_id) (c_name key)) = .STRING →
      value_obj.IsString = false →
        (set_gsetting B s schema_id key value_obj).outcome
          = .threw "Key requires string value!" ∧
        (set_gsetting B s schema_id key value_obj).noRangeCheck ∧
        (set_gsetting B s schema_id key value_obj).noWrite s) ∧
    (g_variant_get_type (B.get_value s (c_name schema_id) (c_name key)) = .DOUBLE →
      value_obj.IsNumber = false →
        (set_gsetting B s schema_id key value_obj).outcome
          = .threw "Key requires a number!" ∧
        (set_gsetting B s schema_id key value_obj).noRangeCheck ∧
        (set_gsetting B s schema_id key value_obj).noWrite s) := by
  refine ⟨fun ht hv => ?_, fun ht hv => ?_, fun ht hv => ?_⟩
  · exact set_gsetting_encode_error_untouched B s schema_id key value_obj _ hsrc hschema hkey
      (by rw [ht]; exact encode_BOOLEAN_error value_obj hv)
  · exact set_gsetting_encode_error_untouched B s schema_id key value_obj _ hsrc hschema hkey
      (by rw [ht]; exact encode_STRING_error value_obj hv)
  · exact set_gsetting_encode_error_untouched B s schema_id key value_obj _ hsrc hschema hkey
      (by rw [ht]; exact encode_DOUBLE_error value_obj hv)

/-- C2 at `set("valid.schema", "bool-key", "not-a-boolean")`. -/
theorem set_gsetting_type_mismatch_leaves_store_witness :
    (set_gsetting (demoBackend true) demoState "valid.schema" "bool-key"
        (.string "not-a-boolean")).outcome = .threw "Key requires boolean value!" ∧
    (set_gsetting (demoBackend true) demoState "valid.schema" "bool-key"
        (.string "not-a-boolean")).noRangeCheck ∧
    (set_gsetting (demoBackend true) demoState "valid.schema" "bool-key"
        (.string "not-a-boolean")).noWrite demoState :=
  (set_gsetting_type_mismatch_leaves_store (demoBackend true) demoState "valid.schema"
    "bool-key" (.string "not-a-boolean") rfl (by decide) (by decide)).1 (by decide) rfl

/-- C3.  After validation and a successful encoding, a range check that
returns false makes `set_gsetting` throw "Invalid range or type!"; the write
and the sync are not called, the state of the store is the one before the call
and every key reads as before. -/
theorem set_gsetting_range_violation {σ : Type} (B : Backend σ) (s : σ)
    (schema_id key : String) (value_obj : JsValue) (g : GVariant)
    (hsrc : B.schema_source_get_default = true)
    (hschema : B.schema_source_lookup (c_name schema_id) = true)
    (hkey : B.schema_has_key (c_name schema_id) (c_name key) = true)
    (henc : set_gsetting_encode
      (g_variant_get_type (B.get_value s (c_name schema_id) (c_name key))) value_obj
        = .ok g)
    (hrange : B.key_range_check (c_name schema_id) (c_name key) g = false) :
    (set_gsetting B s schema_id key value_obj).outcome = .threw "Invalid range or type!" ∧
    (set_gsetting B s schema_id key value_obj).noWrite s ∧
    (∀ id k, B.get_value (set_gsetting B s schema_id key value_obj).state id k
      = B.get_value s id k) := by
  rw [set_gsetting_of_encode_ok B s schema_id key value_obj g hsrc hschema hkey henc]
  have h := set_gsetting_read_calls_any (c_name schema_id) (c_name key)
  simp [hrange, Run.noWrite, StoreCall.isSetValue, StoreCall.isSync, h.2.1, h.2.2]

/-- C3 at `set("valid.schema", "ranged-int-key", 11)`, the range being 0 to 10. -/
theorem set_gsetting_range_violation_witness :
    (set_gsetting (demoBackend true) demoState "valid.schema" "ranged-int-key"
        (.number (.finite 11))).outcome = .threw "Invalid range or type!" ∧
    (set_gsetting (demoBackend true) demoState "valid.schema" "ranged-int-key"
        (.number (.finite 11))).noWrite demoState ∧
    (∀ id k, (demoBackend true).get_value
        (set_gsetting (demoBackend true) demoState "valid.schema" "ranged-int-key"
          (.number (.finite 11))).state id k
      = (demoBackend true).get_value demoState id k) :=
  set_gsetting_range_violation (demoBackend true) demoState "valid.schema" "ranged-int-key"
    (.number (.finite 11)) (.int32 11) rfl (by decide) (by decide) rfl (by decide)

/-- C4.  On a key whose stored value is a string array, an array with an
element that is not a string, whatever stands before and after it, makes
`set_gsetting` throw "Array item have to be strings!"; the range check, the
write and the sync are not called and the state of the store is the one before
the call. -/
theorem set_gsetting_array_item_not_string {σ : Type} (B : Backend σ) (s : σ)
    (schema_id key : String) (before after : List JsValue) (item : JsValue)
    (hsrc : B.schema_source_get_default = true)
    (hschema : B.schema_source_lookup (c_name schema_id) = true)
    (hkey : B.schema_has_key (c_name schema_id) (c_name key) = true)
    (htype : g_variant_get_type (B.get_value s (c_name schema_id) (c_name key))
      = .STRING_ARRAY)
    (hitem : item.IsString = false) :
    (set_gsetting B s schema_id key (.array (before ++ item :: after))).outcome
      = .threw "Array item have to be strings!" ∧
    (set_gsetting B s schema_id key (.array (before ++ item :: after))).noRangeCheck ∧
    (set_gsetting B s schema_id key (.array (before ++ item :: after))).noWrite s := by
  apply set_gsetting_encode_error_untouched B s schema_id key _ _ hsrc hschema hkey
  rw [htype]
  have h := strv_loop_error (before ++ item :: after) [] ⟨item, by simp, hitem⟩
  simp [set_gsetting_encode, h]

/-- C4 at `set("valid.schema", "string-array-key", ["a", 123, "b"])`. -/
theorem set_gsetting_array_item_not_string_witness :
    (set_gsetting (demoBackend true) demoState "valid.schema" "string-array-key"
        (.array ([.string "a"] ++ .number (.finite 123) :: [.string "b"]))).outcome
      = .threw "Array item have to be strings!" ∧
    (set_gsetting (demoBackend true) demoState "valid.schema" "string-array-key"
        (.array ([.string "a"] ++ .number (.finite 123) :: [.string "b"]))).noRangeCheck ∧
    (set_gsetting (demoBackend true) demoState "valid.schema" "string-array-key"
        (.array ([.string "a"] ++ .number (.finite 123) :: [.string "b"]))).noWrite
      demoState :=
  set_gsetting_array_item_not_string (demoBackend true) demoState "valid.schema"
    "string-array-key" [.string "a"] [.string "b"] (.number (.finite 123))
    rfl (by decide) (by decide) (by decide) rfl

/-- C9, as the code has it.  For a schema id and a key without U+0000: when
the schema source is available and the schema is installed but does not declare
the key, `get_gsetting` and `set_gsetting` throw "Key does not exist!" (so no
value is returned); `g_settings_get_value`, the range check, the write and the
sync are not called and the state of the store is the one before the call. -/
theorem missing_key_is_rejected_before_store_access {σ : Type} (B : Backend σ) (s : σ)
    (schema_id key : String) (value_obj : JsValue)
    (hid : schema_id.data.contains NUL = false)
    (hk : key.data.contains NUL = false)
    (hsrc : B.schema_source_get_default = true)
    (hschema : B.schema_source_lookup schema_id = true)
    (hkey : B.schema_has_key schema_id key = false) :
    ((get_gsetting B s schema_id key).outcome = .threw "Key does not exist!" ∧
      (get_gsetting B s schema_id key).noRead ∧
      (get_gsetting B s schema_id key).noRangeCheck ∧
      (get_gsetting B s schema_id key).noWrite s) ∧
    ((set_gsetting B s schema_id key value_obj).outcome = .threw "Key does not exist!" ∧
      (set_gsetting B s schema_id key value_obj).noRead ∧
      (set_gsetting B s schema_id key value_obj).noRangeCheck ∧
      (set_gsetting B s schema_id key value_obj).noWrite s) := by
  have h1 : c_name schema_id = schema_id := c_name_of_nulFree schema_id hid
  have h2 : c_name key = key := c_name_of_nulFree key hk
  exact missing_key_rejected_as_received B s schema_id key value_obj hsrc
    (by rw [h1]; exact hschema) (by rw [h1, h2]; exact hkey)

/-- C9 at `get("valid.schema", "nonexistent-key")` and
`set("valid.schema", "nonexistent-key", true)`. -/
theorem missing_key_is_rejected_before_store_access_witness :
    ((get_gsetting (demoBackend true) demoState "valid.schema" "nonexistent-key").outcome
        = .threw "Key does not exist!" ∧
      (get_gsetting (demoBackend true) demoState "valid.schema" "nonexistent-key").noRead ∧
      (get_gsetting (demoBackend true) demoState "valid.schema"
        "nonexistent-key").noRangeCheck ∧
      (get_gsetting (demoBackend true) demoState "valid.schema" "nonexistent-key").noWrite
        demoState) ∧
    ((set_gsetting (demoBackend true) demoState "valid.schema" "nonexistent-key"
        (.boolean true)).outcome = .threw "Key does not exist!" ∧
      (set_gsetting (demoBackend true) demoState "valid.schema" "nonexistent-key"
        (.boolean true)).noRead ∧
      (set_gsetting (demoBackend true) demoState "valid.schema" "nonexistent-key"
        (.boolean true)).noRangeCheck ∧
      (set_gsetting (demoBackend true) demoState "valid.schema" "nonexistent-key"
        (.boolean true)).noWrite demoState) :=
  missing_key_is_rejected_before_store_access (demoBackend true) demoState "valid.schema"
    "nonexistent-key" (.boolean true) (by decide) (by decide) rfl (by decide) (by decide)

/-- C9 as stated fails for a key that holds U+0000.  The key "bool-key",
U+0000, "junk" is not declared by `valid.schema`, yet `get_gsetting` reads the
store and returns the value of `bool-key`, and `set_gsetting` writes `bool-key`
and syncs: the backend receives the key cut at its first U+0000. -/
theorem key_with_NUL_is_cut :
    (demoBackend true).schema_source_get_default = true ∧
    (demoBackend true).schema_source_lookup "valid.schema" = true ∧
    (demoBackend true).schema_has_key "valid.schema"
      (String.mk ("bool-key".data ++ NUL :: "junk".data)) = false ∧
    (get_gsetting (demoBackend true) demoState "valid.schema"
      (String.mk ("bool-key".data ++ NUL :: "junk".data))).outcome
      = .returned (.boolean false) ∧
    (get_gsetting (demoBackend true) demoState "valid.schema"
      (String.mk ("bool-key".data ++ NUL :: "junk".data))).trace
      = [.schema_source_get_default, .schema_source_lookup "valid.schema",
         .schema_has_key (some "valid.schema") "bool-key", .settings_new "valid.schema",
         .get_value "valid.schema" "bool-key"] ∧
    (set_gsetting (demoBackend true) demoState "valid.schema"
      (String.mk ("bool-key".data ++ NUL :: "junk".data)) (.boolean true)).outcome
      = .returned .undefined ∧
    (set_gsetting (demoBackend true) demoState "valid.schema"
      (String.mk ("bool-key".data ++ NUL :: "junk".data)) (.boolean true)).trace
      = set_gsetting_read_calls "valid.schema" "bool-key" ++
        [.key_range_check "valid.schema" "bool-key" (.boolean true),
         .set_value "valid.schema" "bool-key" (.boolean true), .sync] ∧
    (demoBackend true).get_value
      (set_gsetting (demoBackend true) demoState "valid.schema"
        (String.mk ("bool-key".data ++ NUL :: "junk".data)) (.boolean true)).state
      "valid.schema" "bool-key" = .boolean true ∧
    (demoBackend true).get_value demoState "valid.schema" "bool-key" = .boolean false := by
  refine ⟨rfl, by decide, by decide, rfl, by decide, rfl, by decide, by decide, by decide⟩

/-- C10.  After validation, a successful encoding and a range check that
returns true, `set_gsetting` calls the range check, then `g_settings_set_value`
with the encoded variant, then `g_settings_sync`, each exactly once and in this
order, whatever the write returns; it throws
"Failed to set gsetting! Key is write protected." exactly when the write
returned false and returns without an exception otherwise. -/
theorem set_gsetting_commit {σ : Type} (B : Backend σ) (s : σ)
    (schema_id key : String) (value_obj : JsValue) (g : GVariant)
    (hsrc : B.schema_source_get_default = true)
    (hschema : B.schema_source_lookup (c_name schema_id) = true)
    (hkey : B.schema_has_key (c_name schema_id) (c_name key) = true)
    (henc : set_gsetting_encode
      (g_variant_get_type (B.get_value s (c_name schema_id) (c_name key))) value_obj
        = .ok g)
    (hrange : B.key_range_check (c_name schema_id) (c_name key) g = true) :
    (set_gsetting B s schema_id key value_obj).trace
      = set_gsetting_read_calls (c_name schema_id) (c_name key) ++
        [.key_range_check (c_name schema_id) (c_name key) g,
         .set_value (c_name schema_id) (c_name key) g, .sync] ∧
    (set_gsetting B s schema_id key value_obj).trace.filter StoreCall.isSetValue
      = [.set_value (c_name schema_id) (c_name key) g] ∧
    (set_gsetting B s schema_id key value_obj).trace.filter StoreCall.isSync = [.sync] ∧
    (set_gsetting B s schema_id key value_obj).state
      = B.sync (B.set_value s (c_name schema_id) (c_name key) g).2 ∧
    ((set_gsetting B s schema_id key value_obj).outcome
        = .threw "Failed to set gsetting! Key is write protected." ↔
      (B.set_value s (c_name schema_id) (c_name key) g).1 = false) ∧
    ((B.set_value s (c_name schema_id) (c_name key) g).1 = true →
      (set_gsetting B s schema_id key value_obj).outcome = .returned .undefined) := by
  rw [set_gsetting_of_encode_ok B s schema_id key value_obj g hsrc hschema hkey henc]
  rw [if_pos hrange]
  refine ⟨rfl, ?_, ?_, rfl, ?_, ?_⟩
  · simp [set_gsetting_read_calls, StoreCall.isSetValue, List.filter]
  · simp [set_gsetting_read_calls, StoreCall.isSync, List.filter]
  · cases hw : (B.set_value s (c_name schema_id) (c_name key) g).1 <;> simp
  · intro hw
    simp [hw]

/-- C10 at `set("valid.schema", "locked-key", false)`, a key that is not writable. -/
theorem set_gsetting_commit_witness :
    (set_gsetting (demoBackend true) demoState "valid.schema" "locked-key"
        (.boolean false)).trace
      = set_gsetting_read_calls "valid.schema" "locked-key" ++
        [.key_range_check "valid.schema" "locked-key" (.boolean false),
         .set_value "valid.schema" "locked-key" (.boolean false), .sync] ∧
    (set_gsetting (demoBackend true) demoState "valid.schema" "locked-key"
        (.boolean false)).outcome
      = .threw "Failed to set gsetting! Key is write protected." :=
  have h := set_gsetting_commit (demoBackend true) demoState "valid.schema" "locked-key"
    (.boolean false) (.boolean false) rfl (by decide) (by decide) rfl (by decide)
  ⟨h.1, h.2.2.2.2.1.mpr (by decide)⟩

/-- C8, as the code has it.  On a key whose stored value is an int32 (a
uint32), the encoding succeeds exactly when the value is a number other than
negative zero whose value is a whole number from -2^31 to 2^31-1 (from 0 to
2^32-1).  Then the variant given to the range check, and to the write when the
range check passes, is an int32 (a uint32) whose payload is that number.
Otherwise, so also for negative zero, `set_gsetting` throws
"Key requires a integer number!" ("Key requires a unsigned integer number!")
and reaches neither the range check nor the write nor the sync. -/
theorem set_gsetting_integer_keys {σ : Type} (B : Backend σ) (s : σ)
    (schema_id key : String) (value_obj : JsValue)
    (hsrc : B.schema_source_get_default = true)
    (hschema : B.schema_source_lookup (c_name schema_id) = true)
    (hkey : B.schema_has_key (c_name schema_id) (c_name key) = true) :
    (g_variant_get_type (B.get_value s (c_name schema_id) (c_name key)) = .INT32 →
      ((∃ g, set_gsetting_encode .INT32 value_obj = .ok g) ↔
        ∃ n : Int, value_obj.isInteger n ∧ ¬ value_obj.isNegZero ∧
          -(2 : Int) ^ 31 ≤ n ∧ n ≤ (2 : Int) ^ 31 - 1) ∧
      (∀ n : Int, value_obj.isInteger n → ¬ value_obj.isNegZero →
        -(2 : Int) ^ 31 ≤ n → n ≤ (2 : Int) ^ 31 - 1 →
        (set_gsetting B s schema_id key value_obj).trace
          = set_gsetting_read_calls (c_name schema_id) (c_name key) ++
            .key_range_check (c_name schema_id) (c_name key) (.int32 n) ::
              (if B.key_range_check (c_name schema_id) (c_name key) (.int32 n) then
                [.set_value (c_name schema_id) (c_name key) (.int32 n), .sync]
               else [])) ∧
      ((¬ ∃ n : Int, value_obj.isInteger n ∧ ¬ value_obj.isNegZero ∧
          -(2 : Int) ^ 31 ≤ n ∧ n ≤ (2 : Int) ^ 31 - 1) →
        (set_gsetting B s schema_id key value_obj).outcome
          = .threw "Key requires a integer number!" ∧
        (set_gsetting B s schema_id key value_obj).noRangeCheck ∧
        (set_gsetting B s schema_id key value_obj).noWrite s)) ∧
    (g_variant_get_type (B.get_value s (c_name schema_id) (c_name key)) = .UINT32 →
      ((∃ g, set_gsetting_encode .UINT32 value_obj = .ok g) ↔
        ∃ n : Int, value_obj.isInteger n ∧ ¬ value_obj.isNegZero ∧
          0 ≤ n ∧ n ≤ (2 : Int) ^ 32 - 1) ∧
      (∀ n : Int, value_obj.isInteger n → ¬ value_obj.isNegZero →
        0 ≤ n → n ≤ (2 : Int) ^ 32 - 1 →
        (set_gsetting B s schema_id key value_obj).trace
          = set_gsetting_read_calls (c_name schema_id) (c_name key) ++
            .key_range_check (c_name schema_id) (c_name key) (.uint32 n.toNat) ::
              (if B.key_range_check (c_name schema_id) (c_name key) (.uint32 n.toNat) then
                [.set_value (c_name schema_id) (c_name key) (.uint32 n.toNat), .sync]
               else [])) ∧
      ((¬ ∃ n : Int, value_obj.isInteger n ∧ ¬ value_obj.isNegZero ∧
          0 ≤ n ∧ n ≤ (2 : Int) ^ 32 - 1) →
        (set_gsetting B s schema_id key value_obj).outcome
          = .threw "Key requires a unsigned integer number!" ∧
        (set_gsetting B s schema_id key value_obj).noRangeCheck ∧
        (set_gsetting B s schema_id key value_obj).noWrite s)) := by
  have hb := isInteger_not_negZero_iff value_obj
  have old := set_gsetting_integer_keys_finite B s schema_id key value_obj hsrc hschema hkey
  refine ⟨fun ht => ⟨?_, ?_, ?_⟩, fun ht => ⟨?_, ?_, ?_⟩⟩
  · rw [(old.1 ht).1]
    constructor
    · rintro ⟨n, h, hlo, hhi⟩
      exact ⟨n, ((hb n).mpr h).1, ((hb n).mpr h).2, hlo, hhi⟩
    · rintro ⟨n, h1, h2, hlo, hhi⟩
      exact ⟨n, (hb n).mp ⟨h1, h2⟩, hlo, hhi⟩
  · intro n h1 h2 hlo hhi
    exact (old.1 ht).2.1 n ((hb n).mp ⟨h1, h2⟩) hlo hhi
  · intro hn
    apply (old.1 ht).2.2
    rintro ⟨n, h, hlo, hhi⟩
    exact hn ⟨n, ((hb n).mpr h).1, ((hb n).mpr h).2, hlo, hhi⟩
  · rw [(old.2 ht).1]
    constructor
    · rintro ⟨n, h, hlo, hhi⟩
      exact ⟨n, ((hb n).mpr h).1, ((hb n).mpr h).2, hlo, hhi⟩
    · rintro ⟨n, h1, h2, hlo, hhi⟩
      exact ⟨n, (hb n).mp ⟨h1, h2⟩, hlo, hhi⟩
  · intro n h1 h2 hlo hhi
    exact (old.2 ht).2.1 n ((hb n).mp ⟨h1, h2⟩) hlo hhi
  · intro hn
    apply (old.2 ht).2.2
    rintro ⟨n, h, hlo, hhi⟩
    exact hn ⟨n, ((hb n).mpr h).1, ((hb n).mpr h).2, hlo, hhi⟩

/-- C8 at `set("valid.schema", "int-key", 2147483647)`: the range check and the
write receive the int32 2147483647. -/
theorem set_gsetting_integer_keys_witness :
    (set_gsetting (demoBackend true) demoState "valid.schema" "int-key"
        (.number (.finite ((2147483647 : Int) : ℚ)))).trace
      = set_gsetting_read_calls "valid.schema" "int-key" ++
        [.key_range_check "valid.schema" "int-key" (.int32 2147483647),
         .set_value "valid.schema" "int-key" (.int32 2147483647), .sync] :=
  ((set_gsetting_integer_keys (demoBackend true) demoState "valid.schema" "int-key"
    (.number (.finite ((2147483647 : Int) : ℚ))) rfl (by decide) (by decide)).1 rfl).2.1
      2147483647 ⟨_, rfl, rfl⟩ (fun h => by cases h) (by decide) (by decide)

/-- C8 as stated fails at negative zero: it is a number, its value is the whole
number 0, which lies in both ranges, and yet on an int32 key `set_gsetting`
throws "Key requires a integer number!" and on a uint32 key
"Key requires a unsigned integer number!". -/
theorem negative_zero_is_refused :
    (JsValue.number .negZero).IsNumber = true ∧
    (JsValue.number .negZero).isInteger 0 ∧
    (-(2 : Int) ^ 31 ≤ 0 ∧ (0 : Int) ≤ (2 : Int) ^ 31 - 1 ∧ (0 : Int) ≤ (2 : Int) ^ 32 - 1) ∧
    g_variant_get_type ((demoBackend true).get_value demoState "valid.schema" "int-key")
      = .INT32 ∧
    (set_gsetting (demoBackend true) demoState "valid.schema" "int-key"
      (.number .negZero)).outcome = .threw "Key requires a integer number!" ∧
    g_variant_get_type ((demoBackend true).get_value demoState "valid.schema" "uint-key")
      = .UINT32 ∧
    (set_gsetting (demoBackend true) demoState "valid.schema" "uint-key"
      (.number .negZero)).outcome = .threw "Key requires a unsigned integer number!" := by
  refine ⟨rfl, ⟨.negZero, rfl, ?_⟩, by decide, by decide, rfl, by decide, rfl⟩
  simp [Double.value]

/-- C5 at `schemaExists("valid.schema")` without a schema source:
`schema_exists` throws "No schema sources available!", which is not the message
"No schema source available!" that `get_gsetting` and `set_gsetting` throw on
the same test of the schema source. -/
theorem schema_exists_message_differs :
    (schema_exists (demoBackend false) demoState "valid.schema").outcome
      = .threw "No schema sources available!" ∧
    (schema_exists (demoBackend false) demoState "valid.schema").outcome
      ≠ .threw "No schema source available!" ∧
    (get_gsetting (demoBackend false) demoState "valid.schema" "bool-key").outcome
      = .threw "No schema source available!" ∧
    (set_gsetting (demoBackend false) demoState "valid.schema" "bool-key"
      (.boolean true)).outcome = .threw "No schema source available!" := by
  refine ⟨rfl, ?_, rfl, rfl⟩
  simp [schema_exists, demoBackend]

/-- C6 at a schema without keys: the store reports no key and
`get_gsetting_keys` returns an array of length one, not the empty array. -/
theorem get_gsetting_keys_empty_schema :
    (demoBackend true).list_keys (c_name "empty.schema") = [] ∧
    (get_gsetting_keys (demoBackend true) demoState "empty.schema").outcome
      = .returned (.array [.undefined]) ∧
    (get_gsetting_keys (demoBackend true) demoState "empty.schema").outcome
      ≠ .returned (.array []) := by
  refine ⟨by decide, rfl, ?_⟩
  rw [get_gsetting_keys_of_no_keys _ _ _ (by decide)]
  simp

/-- C1 at `get("nonexistent.schema", "any")` and
`set("nonexistent.schema", "any", true)`: the source is available, the lookup
finds no schema, and neither call throws "Schema is not installed!"; both go on
to `g_settings_schema_has_key` with the NULL schema. -/
theorem absent_schema_is_not_reported :
    (demoBackend true).schema_source_get_default = true ∧
    (demoBackend true).schema_source_lookup (c_name "nonexistent.schema") = false ∧
    (get_gsetting (demoBackend true) demoState "nonexistent.schema" "any").outcome
      ≠ .threw "Schema is not installed!" ∧
    (get_gsetting (demoBackend true) demoState "nonexistent.schema" "any").trace
      = [.schema_source_get_default, .schema_source_lookup "nonexistent.schema",
         .schema_has_key none "any"] ∧
    (set_gsetting (demoBackend true) demoState "nonexistent.schema" "any"
      (.boolean true)).outcome ≠ .threw "Schema is not installed!" ∧
    (set_gsetting (demoBackend true) demoState "nonexistent.schema" "any"
      (.boolean true)).trace
      = [.schema_source_get_default, .schema_source_lookup "nonexistent.schema",
         .schema_has_key none "any"] := by
  have hg : (get_gsetting (demoBackend true) demoState "nonexistent.schema" "any").outcome
      = .null_schema := rfl
  have hs : (set_gsetting (demoBackend true) demoState "nonexistent.schema" "any"
      (.boolean true)).outcome = .null_schema := rfl
  refine ⟨rfl, by decide, ?_, by decide, ?_, by decide⟩
  · rw [hg]; simp
  · rw [hs]; simp

/-- C7, as the code has it.  When `set_gsetting` succeeds on a value none of
whose strings holds U+0000, and the store returns for the key the variant that
was written, `get_gsetting` made on the resulting state returns that value:
the same boolean, number or string, and the same strings in the same order for
an array.  (A successful `set_gsetting` implies that the stored value had one of
the six types boolean, int32, uint32, double, string, string array.) -/
theorem set_then_get_round_trip {σ : Type} (B : Backend σ) (s : σ)
    (schema_id key : String) (v : JsValue)
    (hset : (set_gsetting B s schema_id key v).outcome = .returned .undefined)
    (hstore : ∀ g, StoreCall.set_value (c_name schema_id) (c_name key) g
        ∈ (set_gsetting B s schema_id key v).trace →
      B.get_value (set_gsetting B s schema_id key v).state (c_name schema_id) (c_name key)
        = g)
    (hnul : v.nulFree = true) :
    (get_gsetting B (set_gsetting B s schema_id key v).state schema_id key).outcome
      = .returned v := by
  cases hsrc : B.schema_source_get_default with
  | false => simp [set_gsetting, hsrc] at hset
  | true =>
  cases hl : B.schema_source_lookup (c_name schema_id) with
  | false =>
    simp only [c_name] at hl
    simp [set_gsetting, hsrc, hl] at hset
  | true =>
  cases hk : B.schema_has_key (c_name schema_id) (c_name key) with
  | false =>
    simp only [c_name] at hl hk
    simp [set_gsetting, hsrc, hl, hk] at hset
  | true =>
  cases henc : set_gsetting_encode
      (g_variant_get_type (B.get_value s (c_name schema_id) (c_name key))) v with
  | error msg =>
    rw [set_gsetting_of_encode_error B s schema_id key v msg hsrc hl hk henc] at hset
    simp at hset
  | ok g =>
    have hrun := set_gsetting_of_encode_ok B s schema_id key v g hsrc hl hk henc
    cases hr : B.key_range_check (c_name schema_id) (c_name key) g with
    | false =>
      rw [hrun, hr] at hset
      simp at hset
    | true =>
      rw [hr, if_pos rfl] at hrun
      have hread := hstore g (by rw [hrun]; simp)
      have hdec := decode_encode _ v g henc hnul
      simp only [c_name] at hl hk hread
      simp [get_gsetting, hsrc, hl, hk, hread, hdec]

/-- C7 at `set("valid.schema", "uint-key", 4294967295)` followed by
`get("valid.schema", "uint-key")`: the number comes back as 4294967295. -/
theorem set_then_get_round_trip_witness :
    (get_gsetting (demoBackend true)
      (set_gsetting (demoBackend true) demoState "valid.schema" "uint-key"
        (.number (.finite 4294967295))).state "valid.schema" "uint-key").outcome
      = .returned (.number (.finite 4294967295)) :=
  set_then_get_round_trip (demoBackend true) demoState "valid.schema" "uint-key"
    (.number (.finite 4294967295)) rfl
    (fun g hg => by
      have hg2 : StoreCall.set_value "valid.schema" "uint-key" g
          ∈ set_gsetting_read_calls "valid.schema" "uint-key" ++
            [.key_range_check "valid.schema" "uint-key" (.uint32 4294967295),
             .set_value "valid.schema" "uint-key" (.uint32 4294967295), .sync] := hg
      simp [set_gsetting_read_calls] at hg2
      subst hg2
      rfl)
    rfl

/-- C7 as stated fails for a string that holds U+0000: `set_gsetting` of the
string "a", U+0000, "b" succeeds and writes the string "a"; the store returns
what was written and `get_gsetting` returns "a", not the string that was set. -/
theorem string_with_NUL_is_cut :
    (set_gsetting (demoBackend true) demoState "valid.schema" "string-key"
      (.string (String.mk ['a', NUL, 'b']))).outcome = .returned .undefined ∧
    (set_gsetting (demoBackend true) demoState "valid.schema" "string-key"
      (.string (String.mk ['a', NUL, 'b']))).trace
      = set_gsetting_read_calls "valid.schema" "string-key" ++
        [.key_range_check "valid.schema" "string-key" (.string "a"),
         .set_value "valid.schema" "string-key" (.string "a"), .sync] ∧
    (demoBackend true).get_value
      (set_gsetting (demoBackend true) demoState "valid.schema" "string-key"
        (.string (String.mk ['a', NUL, 'b']))).state "valid.schema" "string-key"
      = .string "a" ∧
    (get_gsetting (demoBackend true)
      (set_gsetting (demoBackend true) demoState "valid.schema" "string-key"
        (.string (String.mk ['a', NUL, 'b']))).state "valid.schema" "string-key").outcome
      = .returned (.string "a") ∧
    Outcome.returned (.string "a") ≠ .returned (.string (String.mk ['a', NUL, 'b'])) := by
  refine ⟨rfl, by decide, by decide, rfl, ?_⟩
  simp only [ne_eq, Outcome.returned.injEq, JsValue.string.injEq]
  decide

end NodeGSettings
